import Mathlib

/-!
Shallow embedding of the group_32 dataframe optimizer.

Embedded source: src/group_32/optimize_special.py (the special-column
classifier).  The numeric optimizer optimize_numeric is not in the source
snapshot (only tests/test_optimize_numeric.py is), so it is modelled from
the specification, as marked on each such definition.

Machine reals (the Python float uniqueness ratio) are modelled exactly over
the rationals; string case operations use the ASCII case model, which is
what every column name in the repository exercises.
-/

/-- A scalar cell of a column.  `na` is the missing-value marker (pandas
NaN/None); nunique(dropna=False) counts it as one distinct value. -/
inductive Cell where
  | intv (i : Int)
  | strv (s : String)
  | boolv (b : Bool)
  | na
  deriving DecidableEq

/-- Column dtypes of the data model: signed integer and float widths,
boolean, pandas category, and free-text object. -/
inductive Dtype where
  | int (w : Nat)
  | float (w : Nat)
  | boolean
  | category
  | object
  deriving DecidableEq

/-- A dataframe column: its name (the loop reads name = str(col)), dtype and
cell sequence. -/
structure Column where
  name : String
  dtype : Dtype
  cells : List Cell
  deriving DecidableEq

/-- A pandas DataFrame: len(df) is the row count; columns in order. -/
structure DataFrame where
  nRows : Nat
  cols : List Column
  deriving DecidableEq

/-- Python exceptions that the embedded code can raise. -/
inductive PyErr where
  | typeError (msg : String)
  | nameError (missing : String)
  | zeroDivisionError
  deriving DecidableEq

/-- Argument values a caller can pass: a DataFrame, or the non-tabular
values exercised by test_invalid_input_type (a list, a string, None). -/
inductive PyValue where
  | frame (df : DataFrame)
  | pylist (xs : List Int)
  | pystr (s : String)
  | pynone
  deriving DecidableEq

/-- Classification labels of the special-column analysis. -/
inductive Label where
  | CategoricalOrdinal
  | Coordinate
  | UniqueID
  | TextEntity
  deriving DecidableEq

/-- One printed line of diagnostic output.  header is the
"--- Special Column Analysis ---" banner, emptyNotice is
"(DataFrame is empty)", tagged l name is the per-column line whose tag is
the label (for example "<Unique ID> name: ..."), numReport is a per-column
diagnostic of the numeric optimizer. -/
inductive Line where
  | header
  | emptyNotice
  | tagged (label : Label) (name : String)
  | numReport (name : String)
  deriving DecidableEq

/-- Series.nunique(dropna=False): the number of distinct cells, with the
missing marker counted as one distinct value. -/
def nuniqueCells (cells : List Cell) : Nat := cells.dedup.length

/-- nunique of a column (line 124 of optimize_special.py). -/
def nuniqueCol (c : Column) : Nat := nuniqueCells c.cells

/-- Python integer division nunique / n_rows: raises ZeroDivisionError when
the divisor is zero, and is modelled exactly over the rationals otherwise
(mkRat a b is the rational a / b). -/
def pyDiv (a : Int) (b : Nat) : Except PyErr ℚ :=
  if b = 0 then .error .zeroDivisionError else .ok (mkRat a b)

deriving instance DecidableEq for Except

/-- ASCII lowercasing of one character, the case model of this embedding
(Python str.lower and the regex IGNORECASE flag; every name in the
repository is ASCII). -/
def lowerChar (ch : Char) : Char :=
  if 64 < ch.toNat && ch.toNat < 91 then Char.ofNat (ch.toNat + 32) else ch

/-- str.lower() of a name, as a character list. -/
def pyLower (s : String) : List Char := s.toList.map lowerChar

/-- The ASCII whitespace stripped by Python str.strip(). -/
def wsChar (ch : Char) : Bool :=
  ch == ' ' || ch == '\t' || ch == '\n' || ch == '\r' || ch == '\x0b' || ch == '\x0c'

/-- str.strip() of a name: drop whitespace from both ends. -/
def trimL (l : List Char) : List Char :=
  ((l.dropWhile wsChar).reverse.dropWhile wsChar).reverse

/-- The three alternatives of the id-regex group, lowercased. -/
def idToks : List (List Char) := [['i', 'd'], ['u', 'u', 'i', 'd'], ['k', 'e', 'y']]

/-- Matching the tail part of the id regex at the head of l: one of the
tokens, followed by end of string or an underscore. -/
def tokEnd (l : List Char) : Bool :=
  idToks.any fun t =>
    t.isPrefixOf l && ((l.drop t.length).isEmpty || (l.drop t.length).head? == some '_')

/-- Scanning the string for an underscore followed by a token match: the
underscore branch of the leading group of the id regex. -/
def scanUnders : List Char → Bool
  | [] => false
  | c :: rest => (c == '_' && tokEnd rest) || scanUnders rest

/-- id_regex.search(name) for the source pattern of line 103 of
optimize_special.py, an IGNORECASE search for: start of string or an
underscore, then id, uuid or key, then end of string or an underscore.
Case-insensitivity is modelled by lowercasing the name. -/
def idSearch (name : String) : Bool :=
  tokEnd (pyLower name) || scanUnders (pyLower name)

/-- The coordinate name set coord_names of line 107, as character lists. -/
def coordSet : List (List Char) :=
  ["lat".toList, "latitude".toList, "lon".toList, "long".toList, "longitude".toList]

/-- The coordinate test of line 120: name.strip().lower() in coord_names. -/
def coordCheck (name : String) : Bool := coordSet.contains ((trimL name.toList).map lowerChar)

/-- The loop body of optimize_special (lines 110 to 136): the per-column
rules in source order, stopping at the first match; n is n_rows.  The
uniqueness ratio nunique / n_rows divides with Python semantics (pyDiv),
and is only computed after the category and coordinate rules fail, exactly
as in the source.  In the shipped module this loop is dead code - the
unbound name re raises NameError at line 103 before it is reached (see
optimize_special) - so it is embedded with that name bound to the standard
regex module the source denotes, and is used only for the safety analysis
of the guarded division (the shipped program performs none of this
labeling). -/
def classifyColumn (n : Nat) (c : Column) : Except PyErr (Option Label) :=
  if c.dtype = .category then .ok (some .CategoricalOrdinal)
  else if coordCheck c.name then .ok (some .Coordinate)
  else
    match pyDiv (nuniqueCol c) n with
    | .error e => .error e
    | .ok r =>
      if idSearch c.name = true ∧ mkRat 9 10 ≤ r then .ok (some .UniqueID)
      else if c.dtype = .object ∧ mkRat 1 2 < r ∧ idSearch c.name = false then
        .ok (some .TextEntity)
      else .ok Option.none

/-- optimize_special as shipped (lines 89 to 139 of the module).  The
module only brings in pandas, so the name re used at line 103
(id_regex = re.compile(...)) is unbound: every call that reaches line 103,
that is, any call on a DataFrame with at least one row, raises NameError
after printing the header.  The per-column loop of lines 110 to 136, dead at
runtime, is embedded separately as classifyColumn and
optimize_special_logic with re bound to the standard regex module the
source names.  The result pairs the printed lines with the outcome, where
.ok () is the Python function returning None. -/
def optimize_special (v : PyValue) : List Line × Except PyErr Unit :=
  match v with
  | .frame df =>
    if df.nRows = 0 then ([.header, .emptyNotice], .ok ())
    else ([.header], .error (.nameError "re"))
  | _ => ([], .error (.typeError "df must be a pandas DataFrame"))

/-- The per-column loop of lines 110 to 136 over the column list (dead code
in the shipped module, see classifyColumn), threading the frame through
each iteration to record that the body only reads it; the first component
lists the printed per-column lines in column order. -/
def specialFold (n : Nat) (df : DataFrame) : List Column → List Line × DataFrame × Except PyErr Unit
  | [] => ([], df, .ok ())
  | c :: rest =>
    match classifyColumn n c with
    | .error e => ([], df, .error e)
    | .ok o =>
      match specialFold n df rest with
      | (ls, df2, r) =>
        ((match o with
          | some l => Line.tagged l c.name :: ls
          | Option.none => ls), df2, r)

/-- Lines 96 to 139 of optimize_special run on a DataFrame, with the regex
name resolved (see optimize_special): print the header, return early with
the empty notice on zero rows, otherwise run the per-column loop.  Returns
the printed lines, the final frame state and the call outcome. -/
def optimize_special_logic (df : DataFrame) : List Line × DataFrame × Except PyErr Unit :=
  if df.nRows = 0 then ([Line.header, Line.emptyNotice], df, .ok ())
  else
    match specialFold df.nRows df df.cols with
    | (ls, df2, r) => (Line.header :: ls, df2, r)

/-- Lower bound of the w-bit signed integer range. -/
def intMin (w : Nat) : Int := -(2 ^ (w - 1))

/-- Upper bound of the w-bit signed integer range. -/
def intMax (w : Nat) : Int := 2 ^ (w - 1) - 1

/-- Does the closed interval from mn to mx fit the w-bit signed range? -/
def fitsW (w : Nat) (mn mx : Int) : Bool := decide (intMin w ≤ mn) && decide (mx ≤ intMax w)

/-- Modelled from the spec: the width-selection rule of the missing module
optimize_numeric.py - the smallest signed width W in {8, 16, 32, 64} whose
range contains [mn, mx], inclusive at the exact range boundaries. -/
def chooseWidth (mn mx : Int) : Nat :=
  if fitsW 8 mn mx then 8
  else if fitsW 16 mn mx then 16
  else if fitsW 32 mn mx then 32
  else 64

/-- The non-missing integer values of a column. -/
def intVals (c : Column) : List Int :=
  c.cells.filterMap fun x => match x with | .intv i => some i | _ => Option.none

/-- Modelled from the spec: the per-column step of the missing module
optimize_numeric.py (only its tests are in the snapshot).  An integer
column is narrowed to the smallest signed width holding the minimum and
maximum of its non-missing values, and left unchanged when that range
exceeds the 64-bit signed range; boolean, categorical and object columns
pass through unchanged.  The float-tolerance downcast depends on binary
floating-point rounding, which no claim here concerns, so float columns
also pass through. -/
def numericColumnStep (c : Column) : Column :=
  match c.dtype with
  | .int _ =>
    match intVals c with
    | [] => c
    | v :: vs =>
      let mn := vs.foldl min v
      let mx := vs.foldl max v
      if fitsW 64 mn mx then { c with dtype := .int (chooseWidth mn mx) } else c
  | _ => c

/-- Modelled from the spec: optimize_numeric(df, verbose), whose source is
missing from the snapshot.  It validates the input type first
(test_invalid_input_type pins the TypeError and its exact message), then
maps the per-column step over the columns; verbose only controls the
diagnostic lines, never the returned frame. -/
def optimize_numeric (v : PyValue) (verbose : Bool) : List Line × Except PyErr DataFrame :=
  match v with
  | .frame df =>
    ((if verbose then df.cols.map (fun c => Line.numReport c.name) else []),
      .ok ⟨df.nRows, df.cols.map numericColumnStep⟩)
  | _ => ([], .error (.typeError "df must be a pandas DataFrame"))

/-- The uniqueness ratio as a total rational function; it agrees with the
pyDiv result whenever n is positive, and equals the rational division of
the distinct count by the row count. -/
def ratioQ (n : Nat) (c : Column) : ℚ := mkRat (nuniqueCol c) n

/-- Is the argument a pandas DataFrame?  The isinstance check of line 91. -/
def isDataFrameArg : PyValue → Bool
  | .frame _ => true
  | _ => false

/-! Helper lemmas. -/

theorem pyDiv_pos (a : Int) (n : Nat) (hn : n ≠ 0) : pyDiv a n = .ok (mkRat a n) := by
  simp [pyDiv, hn]

theorem classifyColumn_pos (n : Nat) (c : Column) (hn : n ≠ 0) :
    classifyColumn n c =
      .ok (if c.dtype = .category then some .CategoricalOrdinal
        else if coordCheck c.name then some .Coordinate
        else if idSearch c.name = true ∧ mkRat 9 10 ≤ ratioQ n c then some .UniqueID
        else if c.dtype = .object ∧ mkRat 1 2 < ratioQ n c ∧ idSearch c.name = false then
          some .TextEntity
        else Option.none) := by
  unfold classifyColumn
  rw [pyDiv_pos _ _ hn]
  by_cases h1 : c.dtype = .category
  · simp [h1]
  · by_cases h2 : coordCheck c.name
    · simp [h1, h2]
    · simp [h1, h2, ratioQ]
      split_ifs <;> rfl

theorem classifyColumn_ok (n : Nat) (c : Column) (hn : n ≠ 0) :
    ∃ o, classifyColumn n c = .ok o := by
  rw [classifyColumn_pos n c hn]
  exact ⟨_, rfl⟩

theorem specialFold_outcome (n : Nat) (hn : n ≠ 0) (df : DataFrame) (l : List Column) :
    (specialFold n df l).2.2 = .ok () := by
  induction l with
  | nil => rfl
  | cons c rest ih =>
    unfold specialFold
    obtain ⟨o, ho⟩ := classifyColumn_ok n c hn
    rw [ho]
    simpa using ih

/-! Claim theorems. -/

/-- Claim C1 (code_bug evidence): the shipped optimize_special does not run
to completion on a DataFrame - on any frame with at least one row it stops
with NameError for the unbound name re (the module never imports re),
directly after printing the header. -/
theorem special_missing_regex_import :
    optimize_special (.frame ⟨1, [⟨"a", .int 64, [.intv 1]⟩]⟩) =
      ([Line.header], .error (.nameError "re")) := rfl

/-- Claim C3 (code_bug evidence): the shipped optimize_special raises
NameError at the unbound regex name before the per-column loop, so even a
categorical column - here one named lat, which the claim says is labeled
CategoricalOrdinal regardless of its name - is never labeled: the whole
output is the header, with no tagged line.  The rule order the claim
describes is the documented intent (spec 4.2 and the docstring examples);
the missing import keeps the program from ever evaluating the rules. -/
theorem special_categorical_never_labeled :
    optimize_special (.frame ⟨3, [⟨"lat", .category,
      [.strv "gold", .strv "silver", .strv "bronze"]⟩]⟩) =
      ([Line.header], .error (.nameError "re")) := rfl

/-- Claim C4 (code_bug evidence): an all-distinct column named customer_id
- which the claim, the spec and the docstring example say is labeled
UniqueID - gets no label from the shipped function: the call ends in
NameError before the loop and emits no tagged line. -/
theorem special_unique_id_never_labeled :
    optimize_special (.frame ⟨3, [⟨"customer_id", .int 64,
      [.intv 0, .intv 1, .intv 2]⟩]⟩) =
      ([Line.header], .error (.nameError "re")) := rfl

/-- Claim C5 (code_bug evidence): a high-cardinality object column named
full_name - TextEntity by the claim, the spec and the docstring example -
gets no label from the shipped function: NameError before the loop, no
tagged line in the output. -/
theorem special_text_entity_never_labeled :
    optimize_special (.frame ⟨3, [⟨"full_name", .object,
      [.strv "ann", .strv "bob", .strv "eve"]⟩]⟩) =
      ([Line.header], .error (.nameError "re")) := rfl

/-- Claim C6 (code_bug evidence): a float column named latitude -
Coordinate by the claim, the spec and the docstring example - gets no
label from the shipped function: NameError before the loop, no tagged
line in the output. -/
theorem special_coordinate_never_labeled :
    optimize_special (.frame ⟨2, [⟨"latitude", .float 64,
      [.intv 1, .intv 2]⟩]⟩) =
      ([Line.header], .error (.nameError "re")) := rfl

/-- Claim C8 (code_bug evidence): on a non-empty frame the shipped
function ends in NameError rather than returning None (the ok-unit
outcome).  The no-mutation half of the claim does hold of the source -
no statement on any path writes to the frame, and the raising path here
touches nothing - but the returns-None half is false of the program. -/
theorem special_raises_instead_of_none :
    optimize_special (.frame ⟨1, [⟨"city", .object, [.strv "x"]⟩]⟩) =
      ([Line.header], .error (.nameError "re")) := rfl

/-- Claim C2: calling either component with a non-DataFrame argument raises
TypeError with exactly the message "df must be a pandas DataFrame", with no
diagnostic output emitted and no column processed (the error is the whole
result). -/
theorem input_type_check :
    ∀ v : PyValue, isDataFrameArg v = false →
      optimize_special v = ([], .error (.typeError "df must be a pandas DataFrame")) ∧
      ∀ vb : Bool, optimize_numeric v vb =
        ([], .error (.typeError "df must be a pandas DataFrame")) := by
  intro v h
  cases v <;> simp_all [optimize_special, optimize_numeric, isDataFrameArg]

/-- Witness for C2 at the three concrete non-tabular arguments the tests
use: a plain list, a string and None. -/
theorem input_type_check_witness :
    optimize_special (.pylist [1, 2, 3]) =
      ([], .error (.typeError "df must be a pandas DataFrame")) ∧
    optimize_numeric (.pystr "not a dataframe") true =
      ([], .error (.typeError "df must be a pandas DataFrame")) ∧
    optimize_special .pynone =
      ([], .error (.typeError "df must be a pandas DataFrame")) :=
  ⟨(input_type_check (.pylist [1, 2, 3]) rfl).1,
   (input_type_check (.pystr "not a dataframe") rfl).2 true,
   (input_type_check .pynone rfl).1⟩

/-- Claim C7: on a zero-row DataFrame, optimize_special emits the single
empty-dataset notice (after the banner) and returns at once: no per-column
line and no per-column analysis, in both the shipped function and the
resolved loop semantics. -/
theorem special_empty_early_return :
    ∀ df : DataFrame, df.nRows = 0 →
      optimize_special (.frame df) = ([Line.header, Line.emptyNotice], .ok ()) ∧
      optimize_special_logic df = ([Line.header, Line.emptyNotice], df, .ok ()) := by
  intro df h
  constructor
  · simp [optimize_special, h]
  · simp [optimize_special_logic, h]

/-- Witness for C7: a concrete zero-row frame with one (empty) column. -/
theorem special_empty_early_return_witness :
    optimize_special (.frame ⟨0, [⟨"a", .object, []⟩]⟩) =
      ([Line.header, Line.emptyNotice], .ok ()) ∧
    optimize_special_logic ⟨0, [⟨"a", .object, []⟩]⟩ =
      ([Line.header, Line.emptyNotice], ⟨0, [⟨"a", .object, []⟩]⟩, .ok ()) :=
  special_empty_early_return ⟨0, [⟨"a", .object, []⟩]⟩ rfl

/-- Claim C10: the uniqueness-ratio division is only reached with a positive
row count, because the zero-row case returns before the loop; hence no run
of the classifier ends in ZeroDivisionError - in fact every run ends in the
ok outcome. -/
theorem special_no_zero_division :
    ∀ df : DataFrame,
      (optimize_special_logic df).2.2 ≠ .error .zeroDivisionError ∧
      (df.nRows = 0 → (optimize_special_logic df).1 = [Line.header, Line.emptyNotice]) := by
  intro df
  by_cases h : df.nRows = 0
  · simp [optimize_special_logic, h]
  · refine ⟨?_, fun h0 => absurd h0 h⟩
    simp [optimize_special_logic, h, specialFold_outcome df.nRows h]

/-- Witness for C10: the zero-row early return at a concrete frame, and the
error-free outcome at a concrete one-row frame. -/
theorem special_no_zero_division_witness :
    (optimize_special_logic ⟨0, [⟨"b", .int 64, []⟩]⟩).1 = [Line.header, Line.emptyNotice] ∧
    (optimize_special_logic ⟨1, [⟨"b", .int 64, [.intv 5]⟩]⟩).2.2 ≠
      .error .zeroDivisionError :=
  ⟨(special_no_zero_division ⟨0, [⟨"b", .int 64, []⟩]⟩).2 rfl,
   (special_no_zero_division ⟨1, [⟨"b", .int 64, [.intv 5]⟩]⟩).1⟩

/-- The running minimum is below its initial value. -/
theorem foldl_min_le_init : ∀ (vs : List Int) (a : Int), vs.foldl min a ≤ a := by
  intro vs
  induction vs with
  | nil => intro a; simp
  | cons v vs ih =>
    intro a
    simp only [List.foldl_cons]
    exact le_trans (ih (min a v)) (min_le_left a v)

/-- The running minimum is below every list element. -/
theorem foldl_min_le_mem : ∀ (vs : List Int) (a x : Int), x ∈ vs → vs.foldl min a ≤ x := by
  intro vs
  induction vs with
  | nil =>
    intro a x h
    cases h
  | cons v vs ih =>
    intro a x h
    rcases List.mem_cons.mp h with h | h
    · subst h
      simp only [List.foldl_cons]
      exact le_trans (foldl_min_le_init vs (min a x)) (min_le_right a x)
    · exact ih (min a v) x h

/-- The running minimum is the initial value or a list element. -/
theorem foldl_min_mem : ∀ (vs : List Int) (a : Int), vs.foldl min a = a ∨ vs.foldl min a ∈ vs := by
  intro vs
  induction vs with
  | nil =>
    intro a
    exact Or.inl rfl
  | cons v vs ih =>
    intro a
    simp only [List.foldl_cons]
    rcases ih (min a v) with h | h
    · rcases min_choice a v with hm | hm
      · exact Or.inl (by rw [h, hm])
      · exact Or.inr (by rw [h, hm]; exact List.mem_cons_self v vs)
    · exact Or.inr (List.mem_cons_of_mem v h)

/-- The running maximum is above its initial value. -/
theorem foldl_max_ge_init : ∀ (vs : List Int) (a : Int), a ≤ vs.foldl max a := by
  intro vs
  induction vs with
  | nil => intro a; simp
  | cons v vs ih =>
    intro a
    simp only [List.foldl_cons]
    exact le_trans (le_max_left a v) (ih (max a v))

/-- The running maximum is above every list element. -/
theorem foldl_max_ge_mem : ∀ (vs : List Int) (a x : Int), x ∈ vs → x ≤ vs.foldl max a := by
  intro vs
  induction vs with
  | nil =>
    intro a x h
    cases h
  | cons v vs ih =>
    intro a x h
    rcases List.mem_cons.mp h with h | h
    · subst h
      simp only [List.foldl_cons]
      exact le_trans (le_max_right a x) (foldl_max_ge_init vs (max a x))
    · exact ih (max a v) x h

/-- The running maximum is the initial value or a list element. -/
theorem foldl_max_mem : ∀ (vs : List Int) (a : Int), vs.foldl max a = a ∨ vs.foldl max a ∈ vs := by
  intro vs
  induction vs with
  | nil =>
    intro a
    exact Or.inl rfl
  | cons v vs ih =>
    intro a
    simp only [List.foldl_cons]
    rcases ih (max a v) with h | h
    · rcases max_choice a v with hm | hm
      · exact Or.inl (by rw [h, hm])
      · exact Or.inr (by rw [h, hm]; exact List.mem_cons_self v vs)
    · exact Or.inr (List.mem_cons_of_mem v h)

/-- All values of a nonempty list fit a width exactly when the interval
from the running minimum to the running maximum fits it. -/
theorem vals_bounds (v : Int) (vs : List Int) (w : Nat) :
    (∀ x ∈ v :: vs, intMin w ≤ x ∧ x ≤ intMax w) ↔
      fitsW w (vs.foldl min v) (vs.foldl max v) = true := by
  unfold fitsW
  rw [Bool.and_eq_true, decide_eq_true_eq, decide_eq_true_eq]
  constructor
  · intro h
    constructor
    · rcases foldl_min_mem vs v with hm | hm
      · rw [hm]
        exact (h v (List.mem_cons_self v vs)).1
      · exact (h _ (List.mem_cons_of_mem v hm)).1
    · rcases foldl_max_mem vs v with hm | hm
      · rw [hm]
        exact (h v (List.mem_cons_self v vs)).2
      · exact (h _ (List.mem_cons_of_mem v hm)).2
  · rintro ⟨hmn, hmx⟩ x hx
    rcases List.mem_cons.mp hx with h | h
    · subst h
      exact ⟨le_trans hmn (foldl_min_le_init vs x), le_trans (foldl_max_ge_init vs x) hmx⟩
    · exact ⟨le_trans hmn (foldl_min_le_mem vs v x h), le_trans (foldl_max_ge_mem vs v x h) hmx⟩

/-- The chosen width is one of the four candidate widths. -/
theorem chooseWidth_mem (mn mx : Int) : chooseWidth mn mx ∈ [8, 16, 32, 64] := by
  unfold chooseWidth
  split_ifs <;> simp

/-- When the interval fits 64 bits, it fits the chosen width. -/
theorem chooseWidth_fits (mn mx : Int) (h64 : fitsW 64 mn mx = true) :
    fitsW (chooseWidth mn mx) mn mx = true := by
  unfold chooseWidth
  split_ifs with h8 h16 h32
  exacts [h8, h16, h32, h64]

/-- The chosen width is the smallest candidate width that fits. -/
theorem chooseWidth_min (mn mx : Int) (w2 : Nat) (hmem : w2 ∈ [8, 16, 32, 64])
    (hfit : fitsW w2 mn mx = true) : chooseWidth mn mx ≤ w2 := by
  unfold chooseWidth
  simp only [List.mem_cons, List.not_mem_nil, or_false] at hmem
  rcases hmem with rfl | rfl | rfl | rfl <;> split_ifs <;> omega

/-- Claim C9: for every integer column whose values all fit the 64-bit
signed range, the numeric optimizer keeps the cells and rewrites the dtype
to the smallest of the widths 8, 16, 32, 64 whose signed range contains
every non-missing value, inclusively at the exact range boundaries. -/
theorem numeric_int_downcast :
    ∀ (c : Column) (w : Nat), c.dtype = .int w → intVals c ≠ [] →
      (∀ x ∈ intVals c, intMin 64 ≤ x ∧ x ≤ intMax 64) →
      (numericColumnStep c).cells = c.cells ∧ (numericColumnStep c).name = c.name ∧
      ∃ wOut, (numericColumnStep c).dtype = .int wOut ∧ wOut ∈ [8, 16, 32, 64] ∧
        (∀ x ∈ intVals c, intMin wOut ≤ x ∧ x ≤ intMax wOut) ∧
        ∀ w2 ∈ [8, 16, 32, 64],
          (∀ x ∈ intVals c, intMin w2 ≤ x ∧ x ≤ intMax w2) → wOut ≤ w2 := by
  intro c w hdt hne hall
  obtain ⟨v, vs, hvals⟩ : ∃ v vs, intVals c = v :: vs := by
    cases hv : intVals c with
    | nil => exact absurd hv hne
    | cons a b => exact ⟨a, b, rfl⟩
  have h64 : fitsW 64 (vs.foldl min v) (vs.foldl max v) = true :=
    (vals_bounds v vs 64).mp (by rw [← hvals]; exact hall)
  have hstep : numericColumnStep c =
      { c with dtype := .int (chooseWidth (vs.foldl min v) (vs.foldl max v)) } := by
    unfold numericColumnStep
    rw [hdt]
    dsimp only
    rw [hvals]
    dsimp only
    rw [if_pos h64]
  rw [hstep]
  refine ⟨rfl, rfl, chooseWidth (vs.foldl min v) (vs.foldl max v), rfl, chooseWidth_mem _ _,
    ?_, ?_⟩
  · rw [hvals]
    exact (vals_bounds v vs _).mpr (chooseWidth_fits _ _ h64)
  · intro w2 hmem hfit
    exact chooseWidth_min _ _ w2 hmem ((vals_bounds v vs w2).mp (by rw [← hvals]; exact hfit))

/-- Witness for C9: the boundary column holding 127, -128 and 0 is
downcast to 8-bit signed, and the column holding 2147483648 and 2147483649
(beyond 32-bit) stays 64-bit signed. -/
theorem numeric_int_downcast_witness :
    ((numericColumnStep ⟨"boundary_int", .int 64, [.intv 127, .intv (-128), .intv 0]⟩).cells =
        [Cell.intv 127, Cell.intv (-128), Cell.intv 0] ∧
      (numericColumnStep ⟨"boundary_int", .int 64, [.intv 127, .intv (-128), .intv 0]⟩).name =
        "boundary_int" ∧
      ∃ wOut,
        (numericColumnStep
          ⟨"boundary_int", .int 64, [.intv 127, .intv (-128), .intv 0]⟩).dtype = .int wOut ∧
        wOut ∈ [8, 16, 32, 64] ∧
        (∀ x ∈ intVals ⟨"boundary_int", .int 64, [.intv 127, .intv (-128), .intv 0]⟩,
          intMin wOut ≤ x ∧ x ≤ intMax wOut) ∧
        ∀ w2 ∈ [8, 16, 32, 64],
          (∀ x ∈ intVals ⟨"boundary_int", .int 64, [.intv 127, .intv (-128), .intv 0]⟩,
            intMin w2 ≤ x ∧ x ≤ intMax w2) → wOut ≤ w2) ∧
    (numericColumnStep ⟨"boundary_int", .int 64, [.intv 127, .intv (-128), .intv 0]⟩).dtype =
      .int 8 ∧
    (numericColumnStep ⟨"huge_int", .int 64, [.intv 2147483648, .intv 2147483649]⟩).dtype =
      .int 64 :=
  ⟨numeric_int_downcast ⟨"boundary_int", .int 64, [.intv 127, .intv (-128), .intv 0]⟩ 64
      rfl (by decide) (by decide),
   by decide, by decide⟩
